import Mathlib

/-!
Verification of the RDS cluster read-replica tag setter
(`setter/internal/metrics/handler.go`).

The handler is embedded shallowly:

* the two AWS clients (`RDSAPI`, `STSAPI`) become a `World` of oracle
  responses, and every outbound capability call is recorded in an
  explicit trace (`CapCall`), so that "makes zero calls to X" is a
  statement about the returned trace;
* Go's `(value, error)` returns become `value × Option String`
  (`none` = nil error) or `Except String value` for calls whose value
  is only used on success;
* the two `json.Unmarshal` call sites are modelled as total Lean
  functions over a small `Json` inductive (a value of `Option Json`
  stands for the raw text: `none` is text that is not valid JSON,
  which includes the empty string of an absent environment variable);
* `strings.Contains` becomes `strContains` over the character list of
  the string (the identifiers involved are ASCII, where byte-wise and
  character-wise containment agree).
-/

/-- A JSON value, as far as the handler's two `json.Unmarshal` sites care. -/
inductive Json where
  | null : Json
  | bool : Bool → Json
  | num : Int → Json
  | str : String → Json
  | arr : List Json → Json
  | obj : List (String × Json) → Json
deriving Repr

/-- Mirror of `rds.Tag` (with `aws.String` pointers already dereferenced). -/
structure Tag where
  key : String
  value : String
deriving Repr, DecidableEq

/-- Mirror of `rds.DBInstance`, restricted to the two fields the handler
reads; `Option` mirrors the `*string` nil checks in `getClusterIdentifier`. -/
structure DBInstance where
  dbClusterIdentifier : Option String
  dbInstanceArn : Option String
deriving Repr, DecidableEq

/-- Mirror of `rds.DescribeDBInstancesOutput`, restricted to `DBInstances`. -/
structure DescribeDBInstancesOutput where
  dbInstances : List DBInstance
deriving Repr, DecidableEq

/-- Mirror of `sts.GetCallerIdentityOutput`, restricted to `Account`
(the handler dereferences it unconditionally). -/
structure GetCallerIdentityOutput where
  account : String
deriving Repr, DecidableEq

/-- One outbound capability call, with the arguments the handler passed. -/
inductive CapCall where
  | describe (dbInstanceIdentifier : String)
  | identity
  | addTags (resourceName : String) (tags : List Tag)
deriving Repr, DecidableEq

/-- The responses of the external capabilities: `describe` answers
`rds.DescribeDBInstances` per instance identifier, `identity` answers
`sts.GetCallerIdentity`, `addTags` answers `rds.AddTagsToResource`
(its output struct is discarded by the handler, so only the error is kept). -/
structure World where
  describe : String → Except String DescribeDBInstancesOutput
  identity : Except String GetCallerIdentityOutput
  addTags : String → List Tag → Option String

/-- The process environment as the handler reads it: `os.Getenv` of
`RDS_CLUSTER_IDENTIFIER` (absent reads as `""`), and the `TAGS` text
already split into valid-JSON (`some j`) or not (`none`). -/
structure Env where
  rdsClusterIdentifier : String
  tags : Option Json

/-- Does `needle` occur as a contiguous substring of the character list?
`strings.Contains` on ASCII strings. -/
def containsSub (needle : List Char) : List Char → Bool
  | [] => needle.isEmpty
  | c :: rest => needle.isPrefixOf (c :: rest) || containsSub needle rest

/-- `strings.Contains s sub`. -/
def strContains (s sub : String) : Bool :=
  containsSub sub.data s.data

/-- Go `map[string]string` assignment `m[k] = v`: replace the binding of
`k` if present, otherwise add it (keys stay unique). -/
def insertPair (l : List (String × String)) (k v : String) : List (String × String) :=
  if l.any (fun p => p.1 = k) then
    l.map (fun p => if p.1 = k then (k, v) else p)
  else
    l ++ [(k, v)]

/-- Decode a JSON object body into a `map[string]string`: every member
value must be a string; duplicate keys assign in order (last wins). -/
def collectStringMap (acc : List (String × String)) : List (String × Json) → Option (List (String × String))
  | [] => some acc
  | (k, Json.str v) :: rest => collectStringMap (insertPair acc k v) rest
  | _ => none

/-- `json.Unmarshal(data, &m)` for `m : map[string]string`: `null` leaves
the map nil (no error), an all-string object builds the map, anything
else is a type error. -/
def unmarshalStringMap : Json → Option (List (String × String))
  | Json.null => some []
  | Json.obj fields => collectStringMap [] fields
  | _ => none

/-- The `TAGS` environment text through `json.Unmarshal`: text that is not
valid JSON (including the empty text of an unset variable) is an error. -/
def unmarshalTagsEnv : Option Json → Option (List (String × String))
  | none => none
  | some j => unmarshalStringMap j

/-- Simple case folding of one character for comparison against an ASCII
string: ASCII upper-case letters fold to lower case, and the two
non-ASCII characters whose Unicode simple-fold orbit contains an ASCII
letter — LATIN SMALL LETTER LONG S (U+017F) and KELVIN SIGN (U+212A) —
fold to that letter; every other character folds to itself. -/
def foldChar (c : Char) : Char :=
  if 'A' ≤ c ∧ c ≤ 'Z' then Char.ofNat (c.toNat + 32)
  else if c.toNat = 0x17F then 's'
  else if c.toNat = 0x212A then 'k'
  else c

/-- Go `strings.EqualFold a b`, exact whenever one side is ASCII (as the
struct field name `SourceIdentifier` is): equal length and rune-wise
simple-fold equivalence. -/
def eqFold (a b : String) : Bool :=
  a.data.map foldChar == b.data.map foldChar

/-- Fold the members of a JSON object into the `SourceIdentifier` field of
`EventDetail`, in order. `encoding/json` matches a member key to the
field case-insensitively (`strings.EqualFold`); a string occurrence sets
the field, a `null` occurrence leaves it, any other type is an error
(`none`), and non-matching keys are ignored. -/
def decodeSourceIdentifier (fields : List (String × Json)) : Option String :=
  fields.foldl
    (fun acc p =>
      if eqFold p.1 "SourceIdentifier" = true then
        match acc, p.2 with
        | some _, Json.str s => some s
        | some cur, Json.null => some cur
        | _, _ => none
      else acc)
    (some "")

/-- `json.Unmarshal(event.Detail, &detail)` for `detail : EventDetail`:
invalid JSON or a non-object, non-null document is an error; `null` and
objects without the field leave the zero value `""`. -/
def unmarshalEventDetail : Option Json → Option String
  | none => none
  | some Json.null => some ""
  | some (Json.obj fields) => decodeSourceIdentifier fields
  | some _ => none

/-- `Handler.getClusterIdentifier`: describe the one instance, then require
a non-empty result list whose head has both `DBClusterIdentifier` and
`DBInstanceArn` set; returns Go's `(string, error)` pair plus the trace of
capability calls made. -/
def getClusterIdentifier (w : World) (dbInstanceIdentifier : String) :
    (String × Option String) × List CapCall :=
  let calls := [CapCall.describe dbInstanceIdentifier]
  match w.describe dbInstanceIdentifier with
  | Except.error e => (("", some ("failed to describe DB instance: " ++ e)), calls)
  | Except.ok output =>
    match output.dbInstances with
    | [] => (("", some ("no DB instance found with ID: " ++ dbInstanceIdentifier)), calls)
    | dbInstance :: _ =>
      match dbInstance.dbClusterIdentifier, dbInstance.dbInstanceArn with
      | some c, some _ => ((c, none), calls)
      | _, _ =>
        (("", some ("instance " ++ dbInstanceIdentifier ++ " is not part of a cluster or details are missing")),
         calls)

/-- The loop building `awsTags` from `tagsMap`: one `rds.Tag` per entry. -/
def toAwsTags (tagsMap : List (String × String)) : List Tag :=
  tagsMap.map (fun p => Tag.mk p.1 p.2)

/-- `Handler.HandleRequest`: validate the environment, parse the event
detail, filter by naming convention, resolve and compare the cluster,
resolve the caller identity, and apply the tags. Returns Go's `error`
(`none` = nil) plus the trace of capability calls made, in order. -/
def HandleRequest (env : Env) (w : World) (detail : Option Json) :
    Option String × List CapCall :=
  if env.rdsClusterIdentifier = "" then
    (some "RDS_CLUSTER_IDENTIFIER environment variable is required", [])
  else
    match unmarshalTagsEnv env.tags with
    | none => (some "error parsing tags from environment", [])
    | some tagsMap =>
      match unmarshalEventDetail detail with
      | none => (some "error unmarshalling event detail", [])
      | some dbInstanceID =>
        if strContains dbInstanceID "application-autoscaling-" = false then
          (none, [])
        else
          let resolved := getClusterIdentifier w dbInstanceID
          match resolved.1.2 with
          | some e => (some e, resolved.2)
          | none =>
            if resolved.1.1 ≠ env.rdsClusterIdentifier then
              (none, resolved.2)
            else
              match w.identity with
              | Except.error e => (some e, resolved.2 ++ [CapCall.identity])
              | Except.ok callerIdentity =>
                let awsTags := toAwsTags tagsMap
                let arn := "arn:aws:rds:us-east-1:" ++ callerIdentity.account ++ ":db:" ++ dbInstanceID
                (w.addTags arn awsTags,
                 resolved.2 ++ [CapCall.identity, CapCall.addTags arn awsTags])

/-- Modelled from the spec: the effect on a resource's tag state of the
external `AddTagsToResource` capability (absent from this repository),
per the spec's "tags are idempotent key-value attachments" — each tag in
the list the handler passes upserts its key's value. -/
def tagStateApply (s : String → Option String) (ts : List Tag) : String → Option String :=
  ts.foldl (fun acc t => fun k => if k = t.key then some t.value else acc k) s

/-- The value of the last tag in `ts` whose key is `k`, if any. -/
def findLast (k : String) : List Tag → Option String
  | [] => none
  | t :: rest =>
    match findLast k rest with
    | some v => some v
    | none => if k = t.key then some t.value else none

/-! Concrete worlds used by witnesses and the C7 counterexample. -/

/-- A world whose every capability fails, with the Go test mocks' default
messages. -/
def worldUnimplemented : World where
  describe := fun _ => Except.error "DescribeDBInstances not implemented"
  identity := Except.error "GetCallerIdentity not implemented"
  addTags := fun _ _ => some "AddTagsToResource not implemented"

/-- A happy-path world: the instance belongs to `prod-cluster`, the caller
account is `123456789012`, tagging succeeds. -/
def worldFry : World where
  describe := fun _ =>
    Except.ok ⟨[⟨some "prod-cluster",
      some "arn:aws:rds:us-east-1:123456789012:db:application-autoscaling-fry"⟩]⟩
  identity := Except.ok ⟨"123456789012"⟩
  addTags := fun _ _ => none

/-- A world whose instance belongs to the competing cluster `momcorp`. -/
def worldMomcorp : World where
  describe := fun _ =>
    Except.ok ⟨[⟨some "momcorp",
      some "arn:aws:rds:us-east-1:123456789012:db:application-autoscaling-mom"⟩]⟩
  identity := Except.error "GetCallerIdentity not implemented"
  addTags := fun _ _ => some "AddTagsToResource not implemented"

/-- A world whose describe call returns an empty instance list. -/
def worldNoInstances : World where
  describe := fun _ => Except.ok ⟨[]⟩
  identity := Except.error "GetCallerIdentity not implemented"
  addTags := fun _ _ => some "AddTagsToResource not implemented"

/-- Two worlds that agree except for the instance resource-name field. -/
def worldArnA : World where
  describe := fun _ =>
    Except.ok ⟨[⟨some "prod-cluster", some "arn:aws:rds:us-east-1:123456789012:db:a"⟩]⟩
  identity := Except.error "GetCallerIdentity not implemented"
  addTags := fun _ _ => some "AddTagsToResource not implemented"

/-- Like `worldArnA`, but the resource name ends in `b`. -/
def worldArnB : World where
  describe := fun _ =>
    Except.ok ⟨[⟨some "prod-cluster", some "arn:aws:rds:us-east-1:123456789012:db:b"⟩]⟩
  identity := Except.error "GetCallerIdentity not implemented"
  addTags := fun _ _ => some "AddTagsToResource not implemented"

/-! Shared helper lemmas. -/

/-- The resolver always makes exactly one describe call. -/
theorem getClusterIdentifier_calls (w : World) (dbInstanceID : String) :
    (getClusterIdentifier w dbInstanceID).2 = [CapCall.describe dbInstanceID] := by
  rcases h : w.describe dbInstanceID with e | output
  · simp [getClusterIdentifier, h]
  · rcases houtput : output.dbInstances with _ | ⟨inst, rest⟩
    · simp [getClusterIdentifier, h, houtput]
    · obtain ⟨ci, arn⟩ := inst
      rcases ci with _ | c <;> rcases arn with _ | a <;>
        simp [getClusterIdentifier, h, houtput]

/-- With valid configuration and a parsed identifier that fails the naming
filter, the handler returns nil with an empty call trace. -/
theorem handleRequest_filter_skip (env : Env) (w : World) (detail : Option Json)
    (tagsMap : List (String × String)) (dbInstanceID : String)
    (hcid : ¬ env.rdsClusterIdentifier = "")
    (htags : unmarshalTagsEnv env.tags = some tagsMap)
    (hdet : unmarshalEventDetail detail = some dbInstanceID)
    (hfilter : strContains dbInstanceID "application-autoscaling-" = false) :
    HandleRequest env w detail = (none, []) := by
  simp [HandleRequest, hcid, htags, hdet, hfilter]

/-- The full success path: valid configuration, filter passed, membership
matches, identity and tagging succeed; the handler returns nil after the
three capability calls, tagging the constructed ARN with the converted map. -/
theorem handleRequest_success (env : Env) (w : World) (detail : Option Json)
    (tagsMap : List (String × String)) (dbInstanceID acc : String)
    (hcid : ¬ env.rdsClusterIdentifier = "")
    (htags : unmarshalTagsEnv env.tags = some tagsMap)
    (hdet : unmarshalEventDetail detail = some dbInstanceID)
    (hfilter : strContains dbInstanceID "application-autoscaling-" = true)
    (hresolve : (getClusterIdentifier w dbInstanceID).1 = (env.rdsClusterIdentifier, none))
    (hid : w.identity = Except.ok ⟨acc⟩)
    (htag : w.addTags ("arn:aws:rds:us-east-1:" ++ acc ++ ":db:" ++ dbInstanceID)
      (toAwsTags tagsMap) = none) :
    HandleRequest env w detail =
      (none, [CapCall.describe dbInstanceID, CapCall.identity,
        CapCall.addTags ("arn:aws:rds:us-east-1:" ++ acc ++ ":db:" ++ dbInstanceID)
          (toAwsTags tagsMap)]) := by
  simp [HandleRequest, hcid, htags, hdet, hfilter, hresolve, hid, htag,
    getClusterIdentifier_calls]

/-! The claims. -/

/-- C1: for every instance identifier that does not contain the substring
`application-autoscaling-` (given valid configuration and a parseable
event), `HandleRequest` returns success (nil error) and makes zero calls
to the membership, identity, and tag capabilities. -/
theorem c1_filter_skip_no_calls (env : Env) (w : World) (detail : Option Json)
    (tagsMap : List (String × String)) (dbInstanceID : String)
    (hcid : ¬ env.rdsClusterIdentifier = "")
    (htags : unmarshalTagsEnv env.tags = some tagsMap)
    (hdet : unmarshalEventDetail detail = some dbInstanceID)
    (hfilter : strContains dbInstanceID "application-autoscaling-" = false) :
    HandleRequest env w detail = (none, []) :=
  handleRequest_filter_skip env w detail tagsMap dbInstanceID hcid htags hdet hfilter

theorem c1_filter_skip_no_calls_witness :
    strContains "nibbler" "application-autoscaling-" = false ∧
    HandleRequest ⟨"prod-cluster", some (Json.obj [])⟩ worldUnimplemented
      (some (Json.obj [("SourceIdentifier", Json.str "nibbler")])) = (none, []) :=
  ⟨by decide,
   c1_filter_skip_no_calls ⟨"prod-cluster", some (Json.obj [])⟩ worldUnimplemented
     (some (Json.obj [("SourceIdentifier", Json.str "nibbler")])) [] "nibbler"
     (by decide) rfl rfl (by decide)⟩

/-- C2: whenever the resolved cluster identifier differs from the configured
expected cluster identifier, `HandleRequest` returns success (nil error)
and never calls the identity or tag capabilities (the trace holds only the
describe call). -/
theorem c2_membership_skip (env : Env) (w : World) (detail : Option Json)
    (tagsMap : List (String × String)) (dbInstanceID clusterID : String)
    (hcid : ¬ env.rdsClusterIdentifier = "")
    (htags : unmarshalTagsEnv env.tags = some tagsMap)
    (hdet : unmarshalEventDetail detail = some dbInstanceID)
    (hfilter : strContains dbInstanceID "application-autoscaling-" = true)
    (hresolve : (getClusterIdentifier w dbInstanceID).1 = (clusterID, none))
    (hdiff : clusterID ≠ env.rdsClusterIdentifier) :
    HandleRequest env w detail = (none, [CapCall.describe dbInstanceID]) := by
  simp [HandleRequest, hcid, htags, hdet, hfilter, hresolve, hdiff,
    getClusterIdentifier_calls]

theorem c2_membership_skip_witness :
    (getClusterIdentifier worldMomcorp "application-autoscaling-mom").1 = ("momcorp", none) ∧
    HandleRequest ⟨"prod-cluster", some (Json.obj [])⟩ worldMomcorp
      (some (Json.obj [("SourceIdentifier", Json.str "application-autoscaling-mom")])) =
      (none, [CapCall.describe "application-autoscaling-mom"]) :=
  ⟨rfl,
   c2_membership_skip ⟨"prod-cluster", some (Json.obj [])⟩ worldMomcorp
     (some (Json.obj [("SourceIdentifier", Json.str "application-autoscaling-mom")]))
     [] "application-autoscaling-mom" "momcorp"
     (by decide) rfl rfl (by decide) rfl (by decide)⟩

/-- C3: with invalid configuration — `RDS_CLUSTER_IDENTIFIER` empty or
absent, or `TAGS` failing to parse as a string-to-string map —
`HandleRequest` returns an error and makes zero calls to any of the three
external capabilities. -/
theorem c3_invalid_config_fail_fast (env : Env) (w : World) (detail : Option Json)
    (h : env.rdsClusterIdentifier = "" ∨ unmarshalTagsEnv env.tags = none) :
    (HandleRequest env w detail).1.isSome = true ∧ (HandleRequest env w detail).2 = [] := by
  rcases h with h | h
  · simp [HandleRequest, h]
  · by_cases hc : env.rdsClusterIdentifier = "" <;> simp [HandleRequest, hc, h]

theorem c3_invalid_config_fail_fast_witness :
    (HandleRequest ⟨"", none⟩ worldUnimplemented (some Json.null)).1.isSome = true ∧
    (HandleRequest ⟨"", none⟩ worldUnimplemented (some Json.null)).2 = [] :=
  c3_invalid_config_fail_fast ⟨"", none⟩ worldUnimplemented (some Json.null) (Or.inl rfl)

/-- C4: each capability failure — describe failing, identity resolution
failing, or tag application failing — makes `HandleRequest` return a
non-nil error (never the nil of a skip), and the trace shows the failed
call made exactly once with nothing after it (no retry, no swallowing). -/
theorem c4_capability_errors (env : Env) (w : World) (detail : Option Json)
    (tagsMap : List (String × String)) (dbInstanceID : String)
    (hcid : ¬ env.rdsClusterIdentifier = "")
    (htags : unmarshalTagsEnv env.tags = some tagsMap)
    (hdet : unmarshalEventDetail detail = some dbInstanceID)
    (hfilter : strContains dbInstanceID "application-autoscaling-" = true) :
    (∀ e, w.describe dbInstanceID = Except.error e →
      HandleRequest env w detail =
        (some ("failed to describe DB instance: " ++ e), [CapCall.describe dbInstanceID])) ∧
    (∀ e, (getClusterIdentifier w dbInstanceID).1 = (env.rdsClusterIdentifier, none) →
      w.identity = Except.error e →
      HandleRequest env w detail =
        (some e, [CapCall.describe dbInstanceID, CapCall.identity])) ∧
    (∀ e acc, (getClusterIdentifier w dbInstanceID).1 = (env.rdsClusterIdentifier, none) →
      w.identity = Except.ok ⟨acc⟩ →
      w.addTags ("arn:aws:rds:us-east-1:" ++ acc ++ ":db:" ++ dbInstanceID)
        (toAwsTags tagsMap) = some e →
      HandleRequest env w detail =
        (some e, [CapCall.describe dbInstanceID, CapCall.identity,
          CapCall.addTags ("arn:aws:rds:us-east-1:" ++ acc ++ ":db:" ++ dbInstanceID)
            (toAwsTags tagsMap)])) := by
  refine ⟨fun e he => ?_, fun e hres hid => ?_, fun e acc hres hid htag => ?_⟩
  · simp [HandleRequest, hcid, htags, hdet, hfilter, getClusterIdentifier, he]
  · simp [HandleRequest, hcid, htags, hdet, hfilter, hres, hid,
      getClusterIdentifier_calls]
  · simp [HandleRequest, hcid, htags, hdet, hfilter, hres, hid, htag,
      getClusterIdentifier_calls]

theorem c4_capability_errors_witness :
    worldUnimplemented.describe "application-autoscaling-fry" =
      Except.error "DescribeDBInstances not implemented" ∧
    HandleRequest ⟨"prod-cluster", some Json.null⟩ worldUnimplemented
      (some (Json.obj [("SourceIdentifier", Json.str "application-autoscaling-fry")])) =
      (some "failed to describe DB instance: DescribeDBInstances not implemented",
       [CapCall.describe "application-autoscaling-fry"]) :=
  ⟨rfl,
   (c4_capability_errors ⟨"prod-cluster", some Json.null⟩ worldUnimplemented
     (some (Json.obj [("SourceIdentifier", Json.str "application-autoscaling-fry")]))
     [] "application-autoscaling-fry" (by decide) rfl rfl (by decide)).1
     "DescribeDBInstances not implemented" rfl⟩

/-- C5: on the full success path the tag capability is called with the
resource name built exactly as
`arn:aws:rds:us-east-1:` ++ accountId ++ `:db:` ++ instanceIdentifier —
region hard-coded, account from the identity resolver, identifier from
the event — and with the parsed `TAGS` map converted to one key-value
pair per entry. -/
theorem c5_success_tags_arn (env : Env) (w : World) (detail : Option Json)
    (tagsMap : List (String × String)) (dbInstanceID acc : String)
    (hcid : ¬ env.rdsClusterIdentifier = "")
    (htags : unmarshalTagsEnv env.tags = some tagsMap)
    (hdet : unmarshalEventDetail detail = some dbInstanceID)
    (hfilter : strContains dbInstanceID "application-autoscaling-" = true)
    (hresolve : (getClusterIdentifier w dbInstanceID).1 = (env.rdsClusterIdentifier, none))
    (hid : w.identity = Except.ok ⟨acc⟩)
    (htag : w.addTags ("arn:aws:rds:us-east-1:" ++ acc ++ ":db:" ++ dbInstanceID)
      (toAwsTags tagsMap) = none) :
    HandleRequest env w detail =
      (none, [CapCall.describe dbInstanceID, CapCall.identity,
        CapCall.addTags ("arn:aws:rds:us-east-1:" ++ acc ++ ":db:" ++ dbInstanceID)
          (toAwsTags tagsMap)]) :=
  handleRequest_success env w detail tagsMap dbInstanceID acc
    hcid htags hdet hfilter hresolve hid htag

theorem c5_success_tags_arn_witness :
    unmarshalTagsEnv (some (Json.obj [("Environment", Json.str "production")])) =
      some [("Environment", "production")] ∧
    HandleRequest ⟨"prod-cluster", some (Json.obj [("Environment", Json.str "production")])⟩
      worldFry
      (some (Json.obj [("SourceIdentifier", Json.str "application-autoscaling-fry")])) =
      (none, [CapCall.describe "application-autoscaling-fry", CapCall.identity,
        CapCall.addTags "arn:aws:rds:us-east-1:123456789012:db:application-autoscaling-fry"
          [⟨"Environment", "production"⟩]]) :=
  ⟨rfl,
   c5_success_tags_arn
     ⟨"prod-cluster", some (Json.obj [("Environment", Json.str "production")])⟩ worldFry
     (some (Json.obj [("SourceIdentifier", Json.str "application-autoscaling-fry")]))
     [("Environment", "production")] "application-autoscaling-fry" "123456789012"
     (by decide) rfl rfl (by decide) rfl rfl rfl⟩

/-- C6: the membership resolver returns an error — with an empty cluster
identifier — when the describe call yields zero results, and when the
first returned descriptor is missing the cluster-identifier field or the
resource-name field. -/
theorem c6_resolver_error_cases (w : World) (dbInstanceID : String)
    (output : DescribeDBInstancesOutput)
    (hdescribe : w.describe dbInstanceID = Except.ok output) :
    (output.dbInstances = [] →
      (getClusterIdentifier w dbInstanceID).1.1 = "" ∧
      ((getClusterIdentifier w dbInstanceID).1.2).isSome = true) ∧
    (∀ inst rest, output.dbInstances = inst :: rest →
      inst.dbClusterIdentifier = none ∨ inst.dbInstanceArn = none →
      (getClusterIdentifier w dbInstanceID).1.1 = "" ∧
      ((getClusterIdentifier w dbInstanceID).1.2).isSome = true) := by
  constructor
  · intro hempty
    simp [getClusterIdentifier, hdescribe, hempty]
  · intro inst rest hcons hmissing
    rcases hmissing with hmiss | hmiss <;>
      rcases hci : inst.dbClusterIdentifier with _ | c <;>
      rcases harn : inst.dbInstanceArn with _ | a <;>
      simp_all [getClusterIdentifier, hdescribe, hcons]

theorem c6_resolver_error_cases_witness :
    (getClusterIdentifier worldNoInstances "application-autoscaling-fry").1.1 = "" ∧
    ((getClusterIdentifier worldNoInstances "application-autoscaling-fry").1.2).isSome = true :=
  (c6_resolver_error_cases worldNoInstances "application-autoscaling-fry" ⟨[]⟩ rfl).1 rfl

/-- C7 counterexample: two describe responses whose only difference is the
resource-name (ARN) field of the descriptor give the same successful
resolver result, so the successful result of `getClusterIdentifier` does
not carry the resource name — it is not the pair
(clusterIdentifier, resourceName) the claim describes. -/
theorem c7_result_not_a_pair_counterexample :
    getClusterIdentifier worldArnA "application-autoscaling-fry" =
      getClusterIdentifier worldArnB "application-autoscaling-fry" ∧
    (getClusterIdentifier worldArnA "application-autoscaling-fry").1 = ("prod-cluster", none) ∧
    ("arn:aws:rds:us-east-1:123456789012:db:a" : String) ≠
      "arn:aws:rds:us-east-1:123456789012:db:b" :=
  ⟨rfl, rfl, by decide⟩

/-- C7 amended: on success the membership resolver returns only the owning
cluster identifier; the resource-name field is required to be present in
the descriptor but is not part of the result (the handler instead
constructs the ARN itself). -/
theorem c7_resolver_success_cluster_only (w : World) (dbInstanceID c a : String)
    (rest : List DBInstance)
    (hdescribe : w.describe dbInstanceID =
      Except.ok ⟨DBInstance.mk (some c) (some a) :: rest⟩) :
    getClusterIdentifier w dbInstanceID = ((c, none), [CapCall.describe dbInstanceID]) := by
  simp [getClusterIdentifier, hdescribe]

theorem c7_resolver_success_cluster_only_witness :
    getClusterIdentifier worldArnA "application-autoscaling-fry" =
      (("prod-cluster", none), [CapCall.describe "application-autoscaling-fry"]) :=
  c7_resolver_success_cluster_only worldArnA "application-autoscaling-fry"
    "prod-cluster" "arn:aws:rds:us-east-1:123456789012:db:a" [] rfl

/-- Evaluating the folded tag state at a key: the last tag with that key
wins, and absent keys fall through to the previous state. -/
theorem tagStateApply_findLast (ts : List Tag) (s : String → Option String) (k : String) :
    tagStateApply s ts k =
      match findLast k ts with
      | some v => some v
      | none => s k := by
  induction ts generalizing s with
  | nil => rfl
  | cons t rest ih =>
    show tagStateApply (fun k => if k = t.key then some t.value else s k) rest k = _
    rw [ih]
    rcases h : findLast k rest with _ | v
    · simp only [findLast, h]
      by_cases hk : k = t.key <;> simp [hk]
    · simp [findLast, h]

/-- C8: applying the same tag list (as built by the handler from a parsed
tag map) to the same resource tag state twice yields the same final state
as applying it once. -/
theorem c8_tag_apply_idempotent (s : String → Option String)
    (tagsMap : List (String × String)) :
    tagStateApply (tagStateApply s (toAwsTags tagsMap)) (toAwsTags tagsMap) =
      tagStateApply s (toAwsTags tagsMap) := by
  funext k
  rw [tagStateApply_findLast, tagStateApply_findLast]
  rcases h : findLast k (toAwsTags tagsMap) with _ | v <;> rfl

/-- A fold over object members none of whose keys case-insensitively
matches `SourceIdentifier` leaves the accumulator untouched. -/
theorem decodeSourceIdentifier_absent (fields : List (String × Json))
    (hfield : ∀ p ∈ fields, eqFold p.1 "SourceIdentifier" = false) :
    decodeSourceIdentifier fields = some "" := by
  show List.foldl _ (some "") fields = some ""
  induction fields with
  | nil => rfl
  | cons p rest ih =>
    have hp : eqFold p.1 "SourceIdentifier" = false := hfield p (List.mem_cons_self p rest)
    simp only [List.foldl_cons, hp, Bool.false_eq_true, if_false]
    exact ih (fun q hq => hfield q (List.mem_cons_of_mem p hq))

/-- C9: an event detail that is a valid JSON object without the
`SourceIdentifier` member — no member key matches the field name under
Go's case-insensitive field matching — is not a parsing error: the
identifier decodes to `""`, fails the naming filter, and the handler
returns success with zero capability calls. -/
theorem c9_missing_field_is_skip (env : Env) (w : World)
    (tagsMap : List (String × String)) (fields : List (String × Json))
    (hcid : ¬ env.rdsClusterIdentifier = "")
    (htags : unmarshalTagsEnv env.tags = some tagsMap)
    (hfield : ∀ p ∈ fields, eqFold p.1 "SourceIdentifier" = false) :
    unmarshalEventDetail (some (Json.obj fields)) = some "" ∧
    HandleRequest env w (some (Json.obj fields)) = (none, []) := by
  have hdet : unmarshalEventDetail (some (Json.obj fields)) = some "" :=
    decodeSourceIdentifier_absent fields hfield
  exact ⟨hdet,
    handleRequest_filter_skip env w (some (Json.obj fields)) tagsMap "" hcid htags hdet
      (by decide)⟩

theorem c9_missing_field_is_skip_witness :
    unmarshalEventDetail (some (Json.obj [])) = some "" ∧
    HandleRequest ⟨"prod-cluster", some (Json.obj [])⟩ worldUnimplemented
      (some (Json.obj [])) = (none, []) :=
  c9_missing_field_is_skip ⟨"prod-cluster", some (Json.obj [])⟩ worldUnimplemented
    [] [] (by decide) rfl (by simp)

/-- C10: when the `TAGS` text is the JSON literal `null` or an encoding of
the empty object, configuration validation succeeds with an empty tag
map, and the full success path calls the tag capability with an empty
tag list. -/
theorem c10_null_tags_empty_list (env : Env) (w : World) (detail : Option Json)
    (dbInstanceID acc : String)
    (hnull : env.tags = some Json.null ∨ env.tags = some (Json.obj []))
    (hcid : ¬ env.rdsClusterIdentifier = "")
    (hdet : unmarshalEventDetail detail = some dbInstanceID)
    (hfilter : strContains dbInstanceID "application-autoscaling-" = true)
    (hresolve : (getClusterIdentifier w dbInstanceID).1 = (env.rdsClusterIdentifier, none))
    (hid : w.identity = Except.ok ⟨acc⟩)
    (htag : w.addTags ("arn:aws:rds:us-east-1:" ++ acc ++ ":db:" ++ dbInstanceID) [] = none) :
    unmarshalTagsEnv env.tags = some [] ∧
    HandleRequest env w detail =
      (none, [CapCall.describe dbInstanceID, CapCall.identity,
        CapCall.addTags ("arn:aws:rds:us-east-1:" ++ acc ++ ":db:" ++ dbInstanceID) []]) := by
  have htags : unmarshalTagsEnv env.tags = some [] := by
    rcases hnull with h | h <;> simp [h, unmarshalTagsEnv, unmarshalStringMap, collectStringMap]
  exact ⟨htags,
    handleRequest_success env w detail [] dbInstanceID acc hcid htags hdet hfilter
      hresolve hid htag⟩

theorem c10_null_tags_empty_list_witness :
    unmarshalTagsEnv (some Json.null) = some [] ∧
    HandleRequest ⟨"prod-cluster", some Json.null⟩ worldFry
      (some (Json.obj [("SourceIdentifier", Json.str "application-autoscaling-fry")])) =
      (none, [CapCall.describe "application-autoscaling-fry", CapCall.identity,
        CapCall.addTags "arn:aws:rds:us-east-1:123456789012:db:application-autoscaling-fry"
          []]) :=
  c10_null_tags_empty_list ⟨"prod-cluster", some Json.null⟩ worldFry
    (some (Json.obj [("SourceIdentifier", Json.str "application-autoscaling-fry")]))
    "application-autoscaling-fry" "123456789012"
    (Or.inl rfl) (by decide) rfl (by decide) rfl rfl rfl
